import Mathlib

/-!
Verification of the charty live market-data streaming engine.

The definitions below are a shallow embedding of the Rust sources:
* `src/websocket.rs` — `ReconnectionPolicy`, the reconnection loop of
  `WebSocketManager::start_finnhub_websocket`, the error classifiers, and
  `WebSocketManager::start`'s missing-API-key branch;
* `src/ui/mod.rs` — `UpdateThrottle`, `App::aggregate_into_candle`,
  `App::update_live_price`;
* `src/main.rs` — the price-receiving step of `run_app`.

Modelling conventions:
* Rust `Duration`s are natural numbers (seconds for the reconnection
  backoff, milliseconds for the throttle, matching the units the source
  constructs them with).
* `f64` prices are modelled as `ℚ`; the aggregator only compares, copies,
  and takes `max`/`min` of prices, and the prices come from JSON numbers
  (never NaN), so rational arithmetic is faithful.
* `u32`/`u64` counters are modelled as `ℕ`; the counters only grow by 1
  (or by a tick's volume) per trade, so machine overflow is unreachable in
  any scenario the claims describe (Rust would panic in debug builds long
  before wrapping in release builds).
* `chrono` timestamps are epoch seconds as `ℤ`; Rust `i64` division
  truncates toward zero, which is `Int.tdiv`.
* The async reconnection loop is embedded as a function over a list of
  per-iteration environment records (`AttemptEnv`): each record gives the
  outcomes the outside world produces during one pass of the `loop` —
  the stop flag at the top of the loop, the `connect_async` result, the
  subscribe-send result, the outcome of `handle_websocket_messages`, and
  the stop flag after the session ends.  The function returns the trace
  of externally visible effects (status-channel sends, writes to the
  shared status mutex, control frames, sleeps) plus a flag telling
  whether the loop returned (`true`) or merely ran out of modelled
  environment (`false`).  In-session price events and ping/pong replies
  are below the granularity the claims need and are not traced.
-/

namespace Charty

/-! ## ReconnectionPolicy (src/websocket.rs lines 11-59) -/

/-- Source constant `MAX_RECONNECT_ATTEMPTS: u32 = 5`. -/
def MAX_RECONNECT_ATTEMPTS : Nat := 5

/-- Source constant `BASE_DELAY_SECS: u64 = 2`. -/
def BASE_DELAY_SECS : Nat := 2

/-- Source constant `MAX_DELAY_SECS: u64 = 32`. -/
def MAX_DELAY_SECS : Nat := 32

/-- `struct ReconnectionPolicy`, delays in whole seconds. -/
structure ReconnectionPolicy where
  max_attempts : Nat
  base_delay : Nat
  max_delay : Nat
  current_attempt : Nat
deriving DecidableEq

/-- `ReconnectionPolicy::new()`. -/
def ReconnectionPolicy.new : ReconnectionPolicy :=
  { max_attempts := MAX_RECONNECT_ATTEMPTS
    base_delay := BASE_DELAY_SECS
    max_delay := MAX_DELAY_SECS
    current_attempt := 0 }

/-- `ReconnectionPolicy::calculate_delay`:
`(self.base_delay * 2_u32.pow(self.current_attempt)).min(self.max_delay)`. -/
def ReconnectionPolicy.calculate_delay (p : ReconnectionPolicy) : Nat :=
  min (p.base_delay * 2 ^ p.current_attempt) p.max_delay

/-- `ReconnectionPolicy::should_retry`: `self.current_attempt < self.max_attempts`. -/
def ReconnectionPolicy.should_retry (p : ReconnectionPolicy) : Bool :=
  p.current_attempt < p.max_attempts

/-- `ReconnectionPolicy::increment`. -/
def ReconnectionPolicy.increment (p : ReconnectionPolicy) : ReconnectionPolicy :=
  { p with current_attempt := p.current_attempt + 1 }

/-- `ReconnectionPolicy::reset`. -/
def ReconnectionPolicy.reset (p : ReconnectionPolicy) : ReconnectionPolicy :=
  { p with current_attempt := 0 }

/-! ## Error-message classification (src/websocket.rs lines 197-237)

Rust classifies by lowercasing the message and testing `str::contains`
with ASCII literals; `Char.toLower` agrees with Rust's lowercasing on
ASCII, which is all these vocabularies use. -/

/-- Does the character list `hay` start with `needle`? -/
def charsStartWith : List Char → List Char → Bool
  | [], _ => true
  | _ :: _, [] => false
  | c :: cs, d :: ds => c == d && charsStartWith cs ds

/-- Does `hay` contain `needle` as a contiguous run (Rust `str::contains`)? -/
def charsContain : List Char → List Char → Bool
  | [], needle => needle.isEmpty
  | c :: rest, needle => charsStartWith needle (c :: rest) || charsContain rest needle

/-- `msg.to_lowercase().contains(pat)` for an already-lowercase ASCII `pat`. -/
def containsLower (msg pat : String) : Bool :=
  charsContain (msg.toList.map Char.toLower) pat.toList

/-- Connect-time fatality test (src/websocket.rs lines 228-229):
`error_str.contains("auth") || error_str.contains("401") || error_str.contains("403")`
on the lowercased error string. -/
def connectErrorFatal (e : String) : Bool :=
  containsLower e "auth" || containsLower e "401" || containsLower e "403"

/-- In-stream recoverability test (src/websocket.rs lines 201-203):
`!msg.contains("auth") && !msg.contains("invalid") && !msg.contains("api key")`
on the lowercased message. -/
def streamErrorRecoverable (msg : String) : Bool :=
  !containsLower msg "auth" && !containsLower msg "invalid" && !containsLower msg "api key"

/-! ## Status types and the reconnection loop (src/websocket.rs lines 73-270) -/

/-- `enum ConnectionStatus` (src/websocket.rs lines 73-79): the value kept in the
shared `Arc<Mutex<ConnectionStatus>>` field of `WebSocketManager`. -/
inductive ConnectionStatus where
  | connected
  | disconnected
  | connecting
  | error (msg : String)
deriving DecidableEq

/-- `enum WebSocketStatus` (src/ui/mod.rs lines 29-36): the events sent on the
status channel.  The `since` timestamp of `Connected` carries no information
the claims discuss and is omitted; `next_retry_in` is in whole seconds. -/
inductive WebSocketStatus where
  | idle
  | connecting
  | connected
  | reconnecting (attempt : Nat) (next_retry_in : Nat)
  | error (message : String) (recoverable : Bool)
  | disconnected
deriving DecidableEq

/-- Outbound control frames the manager writes to the socket. -/
inductive ControlFrame where
  | subscribeMsg (symbol : String)
  | unsubscribeMsg (symbol : String)
deriving DecidableEq

/-- One externally visible effect of the reconnection loop. -/
inductive EngineEvent where
  | channel (s : WebSocketStatus)
  | internal (s : ConnectionStatus)
  | frame (f : ControlFrame)
  | sleep (secs : Nat)
deriving DecidableEq

/-- `enum ConnectionResult` (src/websocket.rs lines 338-342): the outcome of
`handle_websocket_messages`. -/
inductive ConnectionResult where
  | error (msg : String)
  | disconnected
deriving DecidableEq

/-- The outside world's behaviour during one pass of the reconnection loop. -/
structure AttemptEnv where
  stopAtLoopTop : Bool
  connectErr : Option String
  subscribeErr : Option String
  sessionResult : ConnectionResult
  stopAfterSession : Bool
deriving DecidableEq

/-- The retry block at the bottom of the loop (src/websocket.rs lines 240-268):
if the policy allows, increment, then compute the delay from the incremented
counter, emit `Reconnecting` and sleep; otherwise emit the terminal
retry-budget error. -/
def retryStep (p : ReconnectionPolicy) : List EngineEvent × Option ReconnectionPolicy :=
  if p.should_retry then
    let p2 := p.increment
    let d := p2.calculate_delay
    ([.channel (.reconnecting p2.current_attempt d), .sleep d], some p2)
  else
    let msg := "Failed to connect after " ++ toString p.max_attempts ++ " attempts"
    ([.channel (.error msg false), .internal (.error msg)], none)

/-- `WebSocketManager::start_finnhub_websocket` (src/websocket.rs lines 115-270),
one recursive step per pass of its `loop`.  Returns the effect trace and
whether the function returned. -/
def wsRun (sym : String) (p : ReconnectionPolicy) : List AttemptEnv → List EngineEvent × Bool
  | [] => ([], false)
  | env :: rest =>
    if env.stopAtLoopTop then
      ([.channel .disconnected, .internal .disconnected], true)
    else
      let co : List EngineEvent := [.internal .connecting, .channel .connecting]
      match env.connectErr with
      | some e =>
        let evs := co ++ [.internal (.error ("Failed to connect: " ++ e))]
        if connectErrorFatal e then
          (evs ++ [.channel (.error "Authentication failed" false)], true)
        else
          match retryStep p with
          | (revs, some p2) =>
            let t := wsRun sym p2 rest
            (evs ++ revs ++ t.1, t.2)
          | (revs, none) => (evs ++ revs, true)
      | none =>
        let p1 := p.reset
        let evs := co ++ [.internal .connected, .channel .connected, .frame (.subscribeMsg sym)]
        match env.subscribeErr with
        | some e =>
          let evs := evs ++ [.internal (.error ("Failed to subscribe: " ++ e)),
            .channel (.error "Subscription failed" true)]
          let t := wsRun sym p1 rest
          (evs ++ t.1, t.2)
        | none =>
          if env.stopAfterSession then
            (evs ++ [.frame (.unsubscribeMsg sym), .channel .disconnected, .internal .disconnected],
              true)
          else
            match env.sessionResult with
            | .error msg =>
              if streamErrorRecoverable msg then
                match retryStep p1 with
                | (revs, some p2) =>
                  let t := wsRun sym p2 rest
                  (evs ++ revs ++ t.1, t.2)
                | (revs, none) => (evs ++ revs, true)
              else
                (evs ++ [.channel (.error msg false), .internal (.error msg)], true)
            | .disconnected =>
              match retryStep p1 with
              | (revs, some p2) =>
                let t := wsRun sym p2 rest
                (evs ++ revs ++ t.1, t.2)
              | (revs, none) => (evs ++ revs, true)

/-- `WebSocketManager::start` (src/websocket.rs lines 94-113): with an API key
it enters the reconnection loop; without one it records a configuration error
and sends a non-recoverable `Error` on the status channel. -/
def managerStart (apiKey : Option String) (sym : String) (envs : List AttemptEnv) :
    List EngineEvent × Bool :=
  match apiKey with
  | some _ => wsRun sym ReconnectionPolicy.new envs
  | none =>
    ([.internal (.error "No API key configured. Set FINNHUB_API_KEY environment variable."),
      .channel (.error "No API key configured" false)], true)

/-- The statuses delivered through the status channel, in order. -/
def channelStatuses (evs : List EngineEvent) : List WebSocketStatus :=
  evs.filterMap fun e =>
    match e with
    | .channel s => some s
    | _ => none

/-- The sleep durations (seconds) of a trace, in order. -/
def sleepDurations (evs : List EngineEvent) : List Nat :=
  evs.filterMap fun e =>
    match e with
    | .sleep d => some d
    | _ => none

/-- The `(attempt, next_retry_in)` payloads of the `Reconnecting` statuses of a
trace, in order. -/
def reconnectDelays (evs : List EngineEvent) : List (Nat × Nat) :=
  evs.filterMap fun e =>
    match e with
    | .channel (.reconnecting a d) => some (a, d)
    | _ => none

/-- Is a channel status an `Error`? -/
def isErrorStatus : WebSocketStatus → Bool
  | .error _ _ => true
  | _ => false

/-- Is a channel status a `Reconnecting`? -/
def isReconnectingStatus : WebSocketStatus → Bool
  | .reconnecting _ _ => true
  | _ => false

/-! ## UpdateThrottle (src/ui/mod.rs lines 38-60)

`Instant`s are milliseconds on a monotonic clock, modelled as `ℕ`.
`Instant::now()` becomes an explicit `now` argument; `duration_since` is
truncated subtraction, which agrees with Rust for a monotonic clock. -/

/-- `struct UpdateThrottle`. -/
structure UpdateThrottle where
  last_update : Nat
  min_interval : Nat
deriving DecidableEq

/-- `UpdateThrottle::new(min_interval)`; `last_update` starts at the
construction instant. -/
def UpdateThrottle.new (min_interval now : Nat) : UpdateThrottle :=
  { last_update := now, min_interval := min_interval }

/-- `UpdateThrottle::should_update`: if at least `min_interval` elapsed since
`last_update`, reset the clock to `now` and return true; otherwise return
false and leave the state untouched. -/
def UpdateThrottle.should_update (t : UpdateThrottle) (now : Nat) : Bool × UpdateThrottle :=
  if t.min_interval ≤ now - t.last_update then
    (true, { t with last_update := now })
  else
    (false, t)

/-! ## Candles and the aggregator (src/ui/mod.rs lines 130-177, 253-342) -/

/-- `struct Candlestick`.  The source field `open` is a Lean keyword and is
written `open_` here; `timestamp` is the epoch-seconds value of the source's
`DateTime<Utc>` field (the aggregator only ever uses it through
`.timestamp()`). -/
structure Candlestick where
  open_ : ℚ
  high : ℚ
  low : ℚ
  close : ℚ
  volume : Nat
  timestamp : Int
  trade_count : Nat
deriving DecidableEq

/-- `struct Trade` (one entry of the ticker history). -/
structure Trade where
  price : ℚ
  timestamp : Int
  volume : Option Nat
deriving DecidableEq

/-- `struct LivePrice` (src/websocket.rs lines 16-23): one parsed trade tick. -/
structure LivePrice where
  symbol : String
  price : ℚ
  timestamp : Int
  volume : Option Nat
deriving DecidableEq

/-- The fields of `struct App` that the streaming engine's consumer loop
reads or writes.  `live_trades` models the `VecDeque` with the most recent
trade at the head (`push_front` is cons); `live_candles` models its
`VecDeque` with the oldest candle at the head (`push_back` appends,
`pop_front` drops the head).  Presentation-only fields (symbol, layout,
popups, the `stock_data` REST cache) are out of the engine's scope and
omitted. -/
structure App where
  live_updates_enabled : Bool
  last_live_price : Option ℚ
  ws_last_update : Option Int
  update_throttle : UpdateThrottle
  live_trades : List Trade
  live_candles : List Candlestick
  current_candle : Option Candlestick
  candle_interval_secs : Int
  total_live_volume : Nat
  total_trade_count : Nat
deriving DecidableEq

/-- `App::new()` restricted to the modelled fields: live updates disabled, no
history, a 100 ms throttle, one-minute candles (`CandleInterval::OneMinute`
has `to_secs() = 60`). -/
def App.new (nowMs : Nat) : App :=
  { live_updates_enabled := false
    last_live_price := none
    ws_last_update := none
    update_throttle := UpdateThrottle.new 100 nowMs
    live_trades := []
    live_candles := []
    current_candle := none
    candle_interval_secs := 60
    total_live_volume := 0
    total_trade_count := 0 }

/-- The bucket key of `timestamp` at `interval` seconds:
`timestamp.timestamp() / interval_secs * interval_secs` with Rust `i64`
division (truncation toward zero). -/
def bucketStart (timestamp interval : Int) : Int :=
  timestamp.tdiv interval * interval

/-- `App::aggregate_into_candle` (src/ui/mod.rs lines 295-342): update the
current candle in place when the tick falls in its bucket, otherwise finalize
it into `live_candles` (evicting the oldest entry when the history exceeds
60) and start a fresh candle from the tick. -/
def App.aggregate_into_candle (s : App) (price : ℚ) (volume : Nat) (timestamp : Int) : App :=
  let interval_secs := s.candle_interval_secs
  let candle_start := bucketStart timestamp interval_secs
  match s.current_candle with
  | some candle =>
    let current_start := bucketStart candle.timestamp interval_secs
    if candle_start = current_start then
      let updated : Candlestick :=
        { candle with
          high := max candle.high price
          low := min candle.low price
          close := price
          volume := candle.volume + volume
          trade_count := candle.trade_count + 1 }
      { s with current_candle := some updated }
    else
      let hist := s.live_candles ++ [candle]
      let hist := if 60 < hist.length then hist.tail else hist
      let fresh : Candlestick :=
        { open_ := price, high := price, low := price, close := price
          volume := volume, timestamp := timestamp, trade_count := 1 }
      { s with live_candles := hist, current_candle := some fresh }
  | none =>
    let fresh : Candlestick :=
      { open_ := price, high := price, low := price, close := price
        volume := volume, timestamp := timestamp, trade_count := 1 }
    { s with current_candle := some fresh }

/-- `App::update_live_price` (src/ui/mod.rs lines 253-293) restricted to the
modelled fields: record the last price and update time, bump the running
totals, push the trade onto the bounded ticker history, and aggregate the
tick into the candles.  (The source receives the wall-clock time from
`Utc::now()`; here it is the explicit `now` argument.) -/
def App.update_live_price (s : App) (price : ℚ) (volume : Option Nat) (now : Int) : App :=
  let s := { s with
    last_live_price := some price
    ws_last_update := some now
    total_trade_count := s.total_trade_count + 1
    total_live_volume := s.total_live_volume + volume.getD 0 }
  let trades := { price := price, timestamp := now, volume := volume : Trade } :: s.live_trades
  let trades := if 100 < trades.length then trades.dropLast else trades
  let s := { s with live_trades := trades }
  s.aggregate_into_candle price (volume.getD 0) now

/-- The price-receiving step of `run_app` (src/main.rs lines 86-91): at most
one tick is taken off the price channel per frame; it reaches
`update_live_price` only when live updates are enabled and the throttle
fires, and is dropped otherwise.  `recv` is the `try_recv()` result,
`nowMs` the monotonic instant the throttle compares against, `now` the
wall-clock second used for the trade/candle timestamps. -/
def runAppPriceStep (app : App) (recv : Option LivePrice) (nowMs : Nat) (now : Int) : App :=
  match recv with
  | none => app
  | some lp =>
    if app.live_updates_enabled then
      let r := app.update_throttle.should_update nowMs
      let app1 := { app with update_throttle := r.2 }
      if r.1 then app1.update_live_price lp.price lp.volume now else app1
    else app

/-- Feed a list of `(price, volume, timestamp)` ticks to the aggregator in
order. -/
def App.ingestTicks (s : App) (ticks : List (ℚ × Nat × Int)) : App :=
  ticks.foldl (fun a t => a.aggregate_into_candle t.1 t.2.1 t.2.2) s

/-- The candle invariant of the spec: `low ≤ open, close ≤ high` and
`trade_count ≥ 1`. -/
def candleOK (c : Candlestick) : Prop :=
  c.low ≤ c.open_ ∧ c.open_ ≤ c.high ∧ c.low ≤ c.close ∧ c.close ≤ c.high ∧ 1 ≤ c.trade_count

/-- Every candle the app holds, in-progress or finalized, satisfies
`candleOK`. -/
def App.candlesOK (s : App) : Prop :=
  (∀ c ∈ s.current_candle, candleOK c) ∧ ∀ c ∈ s.live_candles, candleOK c

/-! ## Concrete scenarios used by the theorems -/

/-- One loop pass whose connection attempt fails with a plain I/O error. -/
def connFailEnv : AttemptEnv :=
  { stopAtLoopTop := false, connectErr := some "Connection refused (os error 111)"
    subscribeErr := none, sessionResult := .disconnected, stopAfterSession := false }

/-- A fresh manager facing six consecutive recoverable connect failures
(enough to exhaust the five-attempt retry budget). -/
def sixFailRun : List EngineEvent × Bool :=
  wsRun "AAPL" ReconnectionPolicy.new (List.replicate 6 connFailEnv)

/-- A session that connects, subscribes, then dies with message "forbidden". -/
def forbiddenRun : List EngineEvent × Bool :=
  wsRun "AAPL" ReconnectionPolicy.new
    [{ stopAtLoopTop := false, connectErr := none, subscribeErr := none
       sessionResult := .error "forbidden", stopAfterSession := false }]

/-- One loop pass whose connection attempt fails with a connection reset. -/
def resetFailEnv : AttemptEnv :=
  { stopAtLoopTop := false, connectErr := some "Connection reset by peer"
    subscribeErr := none, sessionResult := .disconnected, stopAfterSession := false }

/-- A fresh manager facing six consecutive connection resets at connect time. -/
def resetRun : List EngineEvent × Bool :=
  wsRun "AAPL" ReconnectionPolicy.new (List.replicate 6 resetFailEnv)

/-- One loop pass that connects but fails to send the subscribe frame. -/
def subFailEnv : AttemptEnv :=
  { stopAtLoopTop := false, connectErr := none, subscribeErr := some "broken pipe"
    sessionResult := .disconnected, stopAfterSession := false }

/-- One loop pass that observes the stop flag at the top of the loop. -/
def stopEnv : AttemptEnv :=
  { stopAtLoopTop := true, connectErr := none, subscribeErr := none
    sessionResult := .disconnected, stopAfterSession := false }

/-- Two consecutive subscribe failures, then a user stop. -/
def subFailRun : List EngineEvent × Bool :=
  wsRun "AAPL" ReconnectionPolicy.new [subFailEnv, subFailEnv, stopEnv]

/-- A single recoverable connect failure. -/
def connFailOnceRun : List EngineEvent × Bool :=
  wsRun "AAPL" ReconnectionPolicy.new [connFailEnv]

/-- A connect attempt rejected with an HTTP 401. -/
def authConnectRun : List EngineEvent × Bool :=
  wsRun "AAPL" ReconnectionPolicy.new
    [{ stopAtLoopTop := false, connectErr := some "HTTP error: 401 Unauthorized"
       subscribeErr := none, sessionResult := .disconnected, stopAfterSession := false }]

/-- A session that dies with an invalid-api-key in-stream error. -/
def authStreamRun : List EngineEvent × Bool :=
  wsRun "AAPL" ReconnectionPolicy.new
    [{ stopAtLoopTop := false, connectErr := none, subscribeErr := none
       sessionResult := .error "WebSocket error: invalid api key", stopAfterSession := false }]

/-- A session that dies with a recoverable in-stream transport error. -/
def streamFailRun : List EngineEvent × Bool :=
  wsRun "AAPL" ReconnectionPolicy.new
    [{ stopAtLoopTop := false, connectErr := none, subscribeErr := none
       sessionResult := .error "WebSocket error: Connection reset by peer"
       stopAfterSession := false }]

/-- Starting the manager without an API key. -/
def noKeyStart : List EngineEvent × Bool := managerStart none "AAPL" []

/-- The aggregator after the three ticks of the spec's three-tick scenario,
starting from a fresh `App` (one-minute candles). -/
def c4state (t0 : Int) : App :=
  (App.new 0).ingestTicks [((10 : ℚ), 100, t0), ((12 : ℚ), 100, t0 + 1), ((9 : ℚ), 100, t0 + 2)]

/-- 62 ticks on consecutive one-minute buckets (61 bucket rollovers); the tick
in bucket `k` carries price `k`. -/
def c5ticks : List (ℚ × Nat × Int) :=
  (List.range 62).map fun k => (((k : Nat) : ℚ), 100, ((60 * k : Nat) : Int))

/-- The aggregator after the 62 rollover ticks. -/
def c5state : App := (App.new 0).ingestTicks c5ticks

/-! ## Helper lemmas -/

/-- `charsStartWith` is the prefix relation. -/
theorem charsStartWith_iff (needle : List Char) : ∀ hay,
    charsStartWith needle hay = true ↔ ∃ t, hay = needle ++ t := by
  induction needle with
  | nil => intro hay; simp [charsStartWith]
  | cons c cs ih =>
    intro hay
    cases hay with
    | nil => simp [charsStartWith]
    | cons d ds =>
      simp only [charsStartWith, Bool.and_eq_true, beq_iff_eq, ih, List.cons_append,
        List.cons.injEq]
      constructor
      · rintro ⟨h1, t, h2⟩
        exact ⟨t, h1.symm, h2⟩
      · rintro ⟨t, h1, h2⟩
        exact ⟨h1.symm, t, h2⟩

/-- `charsContain` is the contiguous-substring relation. -/
theorem charsContain_iff : ∀ hay needle : List Char,
    charsContain hay needle = true ↔ ∃ s t, hay = s ++ needle ++ t := by
  intro hay
  induction hay with
  | nil =>
    intro needle
    simp only [charsContain, List.isEmpty_iff]
    constructor
    · rintro rfl
      exact ⟨[], [], rfl⟩
    · rintro ⟨s, t, h⟩
      rcases List.append_eq_nil.mp h.symm with ⟨h1, h2⟩
      rcases List.append_eq_nil.mp h1 with ⟨_, h3⟩
      exact h3
  | cons c rest ih =>
    intro needle
    simp only [charsContain, Bool.or_eq_true, charsStartWith_iff, ih]
    constructor
    · rintro (⟨t, h⟩ | ⟨s, t, h⟩)
      · exact ⟨[], t, by simpa using h⟩
      · exact ⟨c :: s, t, by simp [h]⟩
    · rintro ⟨s, t, h⟩
      cases s with
      | nil => exact Or.inl ⟨t, by simpa using h⟩
      | cons a as =>
        simp only [List.cons_append, List.cons.injEq] at h
        exact Or.inr ⟨as, t, by simp [h.2]⟩

/-- A message containing the literal substring "unauthorized" is caught by the
lowercased "auth" test of both classifiers. -/
theorem containsLower_auth_of_unauthorized (m : String)
    (h : charsContain m.toList "unauthorized".toList = true) :
    containsLower m "auth" = true := by
  rcases (charsContain_iff _ _).mp h with ⟨s, t, hst⟩
  unfold containsLower
  refine (charsContain_iff _ _).mpr ?_
  refine ⟨s.map Char.toLower ++ "un".toList, "orized".toList ++ t.map Char.toLower, ?_⟩
  have hlow : "unauthorized".toList.map Char.toLower = "unauthorized".toList := by decide
  have hsplit : "unauthorized".toList = "un".toList ++ "auth".toList ++ "orized".toList := by
    decide
  rw [hst]
  simp only [List.map_append, hlow]
  rw [hsplit]
  simp [List.append_assoc]

/-- A tick aligned into the bucket starting at `t` keeps the bucket key `t`
(for realistic, i.e. nonnegative, epoch timestamps). -/
theorem bucketStart_eq_of_aligned (t u : Int) (h0 : 0 ≤ t) (hmod : t % 60 = 0)
    (h1 : t ≤ u) (h2 : u < t + 60) : bucketStart u 60 = t := by
  unfold bucketStart
  rw [Int.tdiv_eq_ediv (by omega) (by norm_num)]
  omega

/-- One aggregation step never grows the finalized history past 60 candles. -/
theorem aggregate_length_le (s : App) (p : ℚ) (v : Nat) (t : Int)
    (h : s.live_candles.length ≤ 60) :
    (s.aggregate_into_candle p v t).live_candles.length ≤ 60 := by
  unfold App.aggregate_into_candle
  cases hc : s.current_candle with
  | none => simpa using h
  | some c0 =>
    by_cases heq : bucketStart t s.candle_interval_secs =
        bucketStart c0.timestamp s.candle_interval_secs
    · simpa [heq] using h
    · simp only [heq, if_false]
      split_ifs with hlen
      · simp only [List.length_tail, List.length_append, List.length_singleton] at *
        omega
      · simp only [List.length_append, List.length_singleton] at *
        omega

/-- Feeding any tick list preserves the 60-candle history bound. -/
theorem ingest_length_le (ticks : List (ℚ × Nat × Int)) :
    ∀ s : App, s.live_candles.length ≤ 60 →
      (s.ingestTicks ticks).live_candles.length ≤ 60 := by
  induction ticks with
  | nil => intro s h; simpa [App.ingestTicks] using h
  | cons t ts ih =>
    intro s h
    simp only [App.ingestTicks, List.foldl] at ih ⊢
    exact ih _ (aggregate_length_le s t.1 t.2.1 t.2.2 h)

/-- One aggregation step preserves the candle invariant on every held candle. -/
theorem aggregate_candlesOK {s : App} (h : s.candlesOK) (p : ℚ) (v : Nat) (t : Int) :
    (s.aggregate_into_candle p v t).candlesOK := by
  obtain ⟨hcur, hhist⟩ := h
  unfold App.aggregate_into_candle App.candlesOK
  cases hc : s.current_candle with
  | none =>
    refine ⟨?_, by simpa using hhist⟩
    intro c hcm
    simp only [Option.mem_def, Option.some.injEq] at hcm
    subst hcm
    exact ⟨le_refl _, le_refl _, le_refl _, le_refl _, le_refl _⟩
  | some c0 =>
    have hc0 : candleOK c0 := hcur c0 (by simp [hc])
    obtain ⟨h1, h2, h3, h4, h5⟩ := hc0
    by_cases heq : bucketStart t s.candle_interval_secs =
        bucketStart c0.timestamp s.candle_interval_secs
    · simp only [heq, if_true]
      refine ⟨?_, by simpa using hhist⟩
      intro c hcm
      simp only [Option.mem_def, Option.some.injEq] at hcm
      subst hcm
      refine ⟨?_, ?_, ?_, ?_, ?_⟩
      · exact le_trans (min_le_left _ _) h1
      · exact le_trans h2 (le_max_left _ _)
      · exact min_le_right _ _
      · exact le_max_right _ _
      · exact Nat.le_add_left 1 c0.trade_count
    · simp only [heq, if_false]
      refine ⟨?_, ?_⟩
      · intro c hcm
        simp only [Option.mem_def, Option.some.injEq] at hcm
        subst hcm
        exact ⟨le_refl _, le_refl _, le_refl _, le_refl _, le_refl _⟩
      · intro c hcm
        have hmem : c ∈ s.live_candles ++ [c0] := by
          split_ifs at hcm with hlen
          · exact (List.tail_sublist _).subset hcm
          · exact hcm
        rcases List.mem_append.mp hmem with hin | hin
        · exact hhist c hin
        · simp only [List.mem_singleton] at hin
          subst hin
          exact ⟨h1, h2, h3, h4, h5⟩

/-- Feeding any tick list preserves the candle invariant. -/
theorem ingest_candlesOK (ticks : List (ℚ × Nat × Int)) :
    ∀ s : App, s.candlesOK → (s.ingestTicks ticks).candlesOK := by
  induction ticks with
  | nil => intro s h; simpa [App.ingestTicks] using h
  | cons t ts ih =>
    intro s h
    simp only [App.ingestTicks, List.foldl] at ih ⊢
    exact ih _ (aggregate_candlesOK h t.1 t.2.1 t.2.2)

/-! ## Claim theorems -/

/-- C1, counterexample: with a fresh policy and consecutive recoverable connect
failures, the emitted delays are 4, 8, 16, 32, 32 seconds — not the claimed
2, 4, 8, 16, 32 — and the total sleep before giving up is 92 s, not at most
62 s, because `increment()` runs before `calculate_delay()`. -/
theorem C1_counterexample :
    reconnectDelays sixFailRun.1 = [(1, 4), (2, 8), (3, 16), (4, 32), (5, 32)] ∧
    reconnectDelays sixFailRun.1 ≠ [(1, 2), (2, 4), (3, 8), (4, 16), (5, 32)] ∧
    (sleepDurations sixFailRun.1).sum = 92 ∧
    ¬ (sleepDurations sixFailRun.1).sum ≤ 62 ∧
    sixFailRun.2 = true := by
  decide

/-- C1, amended: the delay for the k-th recorded attempt is
`min (2 * 2 ^ k) 32` seconds, so an uninterrupted run of recoverable failures
from a fresh policy emits Reconnecting attempts 1..5 with delays
4, 8, 16, 32, 32 and sleeps 92 seconds in total before the terminal
retry-budget error. -/
theorem C1_backoff_schedule :
    (∀ k : Nat,
      ({ ReconnectionPolicy.new with current_attempt := k }).calculate_delay =
        min (2 * 2 ^ k) 32) ∧
    channelStatuses sixFailRun.1 =
      [.connecting, .reconnecting 1 4, .connecting, .reconnecting 2 8,
       .connecting, .reconnecting 3 16, .connecting, .reconnecting 4 32,
       .connecting, .reconnecting 5 32, .connecting,
       .error "Failed to connect after 5 attempts" false] ∧
    sleepDurations sixFailRun.1 = [4, 8, 16, 32, 32] ∧
    (sleepDurations sixFailRun.1).sum = 92 ∧
    sixFailRun.2 = true := by
  refine ⟨fun k => rfl, by decide, by decide, by decide, by decide⟩

/-- C2, counterexample: "forbidden" matches none of the substrings the code
actually tests, so a "forbidden" in-stream error is classified recoverable
and is followed by a Reconnecting status, contradicting the claimed
fatal-iff-auth-vocabulary rule. -/
theorem C2_counterexample :
    streamErrorRecoverable "forbidden" = true ∧
    connectErrorFatal "forbidden" = false ∧
    channelStatuses forbiddenRun.1 = [.connecting, .connected, .reconnecting 1 4] := by
  decide

/-- C2, amended: a connect-time error is fatal iff its lowercased message
contains "auth", "401" or "403"; an in-stream error is fatal iff it contains
"auth", "invalid" or "api key" ("forbidden" alone is recoverable).  A fatal
in-stream or connect error terminates the loop at once with a
non-recoverable Error and no Reconnecting ever follows; any message
containing "unauthorized" is fatal under both classifiers; a
"connection reset" message is recoverable, and repeated connect failures
with it produce Reconnecting attempts 1 up to 5. -/
theorem C2_classification :
    (∀ (sym : String) (p : ReconnectionPolicy) (rest : List AttemptEnv)
        (env : AttemptEnv) (m : String), env.stopAtLoopTop = false →
      env.connectErr = none → env.subscribeErr = none →
      env.stopAfterSession = false → env.sessionResult = .error m →
      streamErrorRecoverable m = false →
      wsRun sym p (env :: rest) =
        ([.internal .connecting, .channel .connecting, .internal .connected,
          .channel .connected, .frame (.subscribeMsg sym), .channel (.error m false),
          .internal (.error m)], true)) ∧
    (∀ (sym : String) (p : ReconnectionPolicy) (rest : List AttemptEnv)
        (env : AttemptEnv) (e : String), env.stopAtLoopTop = false →
      env.connectErr = some e → connectErrorFatal e = true →
      wsRun sym p (env :: rest) =
        ([.internal .connecting, .channel .connecting,
          .internal (.error ("Failed to connect: " ++ e)),
          .channel (.error "Authentication failed" false)], true)) ∧
    (∀ m : String, charsContain m.toList "unauthorized".toList = true →
      streamErrorRecoverable m = false ∧ connectErrorFatal m = true) ∧
    (streamErrorRecoverable "Connection reset by peer" = true ∧
      connectErrorFatal "Connection reset by peer" = false) ∧
    (reconnectDelays resetRun.1 = [(1, 4), (2, 8), (3, 16), (4, 32), (5, 32)] ∧
      resetRun.2 = true) := by
  refine ⟨?_, ?_, ?_, by decide, by decide⟩
  · intro sym p rest env m h1 h2 h3 h4 h5 hm
    obtain ⟨a, b, c, d, e⟩ := env
    simp only at h1 h2 h3 h4 h5
    subst h1 h2 h3 h4 h5
    simp [wsRun, hm]
  · intro sym p rest env e h1 h2 he
    obtain ⟨a, b, c, d, e2⟩ := env
    simp only at h1 h2
    subst h1 h2
    simp [wsRun, he]
  · intro m hm
    have hauth := containsLower_auth_of_unauthorized m hm
    constructor
    · simp [streamErrorRecoverable, hauth]
    · simp [connectErrorFatal, hauth]

/-- C2, witness: instances of the classification theorem at concrete inputs —
an in-stream "unauthorized" error and a connect-time "Unauthorized" error
both terminate immediately with a non-recoverable Error and no Reconnecting,
and "server says: unauthorized" is fatal under both classifiers. -/
theorem C2_witness :
    wsRun "AAPL" ReconnectionPolicy.new
        [{ stopAtLoopTop := false, connectErr := none, subscribeErr := none
           sessionResult := .error "unauthorized", stopAfterSession := false }] =
      ([.internal .connecting, .channel .connecting, .internal .connected,
        .channel .connected, .frame (.subscribeMsg "AAPL"),
        .channel (.error "unauthorized" false), .internal (.error "unauthorized")], true) ∧
    wsRun "AAPL" ReconnectionPolicy.new
        [{ stopAtLoopTop := false, connectErr := some "Unauthorized", subscribeErr := none
           sessionResult := .disconnected, stopAfterSession := false }] =
      ([.internal .connecting, .channel .connecting,
        .internal (.error ("Failed to connect: " ++ "Unauthorized")),
        .channel (.error "Authentication failed" false)], true) ∧
    (streamErrorRecoverable "server says: unauthorized" = false ∧
      connectErrorFatal "server says: unauthorized" = true) := by
  refine ⟨?_, ?_, ?_⟩
  · exact C2_classification.1 "AAPL" ReconnectionPolicy.new [] _ "unauthorized"
      rfl rfl rfl rfl rfl (by decide)
  · exact C2_classification.2.1 "AAPL" ReconnectionPolicy.new [] _ "Unauthorized"
      rfl rfl (by decide)
  · exact C2_classification.2.2.1 "server says: unauthorized" (by decide)

/-- C3: if the stop flag is observed after a connected session ends, the
manager sends a best-effort unsubscribe frame, emits Disconnected on the
status channel, records Disconnected internally and returns — the trace is
closed, so no Reconnecting or Error status can follow, whatever the rest of
the environment would have done. -/
theorem C3_stop_while_connected (sym : String) (p : ReconnectionPolicy)
    (rest : List AttemptEnv) (env : AttemptEnv) (h1 : env.stopAtLoopTop = false)
    (h2 : env.connectErr = none) (h3 : env.subscribeErr = none)
    (h4 : env.stopAfterSession = true) :
    wsRun sym p (env :: rest) =
      ([.internal .connecting, .channel .connecting, .internal .connected,
        .channel .connected, .frame (.subscribeMsg sym), .frame (.unsubscribeMsg sym),
        .channel .disconnected, .internal .disconnected], true) := by
  obtain ⟨a, b, c, d, e⟩ := env
  simp only at h1 h2 h3 h4
  subst h1 h2 h3 h4
  simp [wsRun]

/-- C3, witness: the stop-while-connected theorem at a concrete environment. -/
theorem C3_witness :
    wsRun "AAPL" ReconnectionPolicy.new
        [{ stopAtLoopTop := false, connectErr := none, subscribeErr := none
           sessionResult := .disconnected, stopAfterSession := true }] =
      ([.internal .connecting, .channel .connecting, .internal .connected,
        .channel .connected, .frame (.subscribeMsg "AAPL"),
        .frame (.unsubscribeMsg "AAPL"), .channel .disconnected,
        .internal .disconnected], true) :=
  C3_stop_while_connected "AAPL" ReconnectionPolicy.new [] _ rfl rfl rfl rfl

/-- C4: three ticks (10, 100), (12, 100), (9, 100) landing one second apart in
one bucket of a fresh one-minute aggregator produce exactly one in-progress
candle {open 10, high 12, low 9, close 9, volume 300, trade_count 3} and an
empty finalized history (for any bucket-aligned nonnegative start time). -/
theorem C4_three_tick_candle (t0 : Int) (h0 : 0 ≤ t0) (hmod : t0 % 60 = 0) :
    (c4state t0).current_candle =
      some { open_ := 10, high := 12, low := 9, close := 9, volume := 300,
             timestamp := t0, trade_count := 3 } ∧
    (c4state t0).live_candles = [] := by
  have hb0 := bucketStart_eq_of_aligned t0 t0 h0 hmod le_rfl (by omega)
  have hb1 := bucketStart_eq_of_aligned t0 (t0 + 1) h0 hmod (by omega) (by omega)
  have hb2 := bucketStart_eq_of_aligned t0 (t0 + 2) h0 hmod (by omega) (by omega)
  simp only [c4state, App.ingestTicks, List.foldl, App.aggregate_into_candle, App.new,
    hb0, hb1, hb2]
  norm_num [max_def, min_def]
  simp [hb0, hb1, hb2]

/-- C4, witness: the three-tick scenario at the concrete bucket start 600. -/
theorem C4_witness :
    (c4state 600).current_candle =
      some { open_ := 10, high := 12, low := 9, close := 9, volume := 300,
             timestamp := 600, trade_count := 3 } ∧
    (c4state 600).live_candles = [] :=
  C4_three_tick_candle 600 (by norm_num) (by norm_num)

set_option maxRecDepth 8000 in
/-- C5: the finalized history never exceeds 60 candles for any tick sequence
fed to a fresh aggregator, and after 61 sequential one-minute bucket
rollovers the history holds exactly 60 candles whose bucket starts are
60, 120, ..., 3600 — the original first candle (bucket start 0) has been
evicted first. -/
theorem C5_history_bound :
    (∀ (ms : Nat) (ticks : List (ℚ × Nat × Int)),
      ((App.new ms).ingestTicks ticks).live_candles.length ≤ 60) ∧
    c5state.live_candles.length = 60 ∧
    c5state.live_candles.map Candlestick.timestamp =
      (List.range 60).map (fun k => ((60 * (k + 1) : Nat) : Int)) ∧
    ({ open_ := 0, high := 0, low := 0, close := 0, volume := 100, timestamp := 0,
       trade_count := 1 } : Candlestick) ∉ c5state.live_candles := by
  refine ⟨fun ms ticks => ingest_length_le ticks _ (by simp [App.new]), ?_, ?_, ?_⟩
  · decide
  · decide
  · decide

/-- C6: every candle a fresh aggregator ever holds — the in-progress one and
every finalized one, after any sequence of ingests — satisfies
low ≤ open ≤ high, low ≤ close ≤ high and trade_count ≥ 1. -/
theorem C6_candle_invariant (ms : Nat) (ticks : List (ℚ × Nat × Int)) :
    ((App.new ms).ingestTicks ticks).candlesOK :=
  ingest_candlesOK ticks _ (by simp [App.candlesOK, App.new])

/-- C7: `should_update` returns true and resets the clock exactly when at
least `min_interval` has elapsed since the last reset, and otherwise returns
false leaving the state untouched; with a 500 ms interval, a ready throttle
answers true, a second call within 500 ms answers false without side
effects, and a later call more than 500 ms after the last true result
answers true again. -/
theorem C7_throttle :
    (∀ (th : UpdateThrottle) (now : Nat), th.min_interval ≤ now - th.last_update →
      th.should_update now =
        (true, { last_update := now, min_interval := th.min_interval })) ∧
    (∀ (th : UpdateThrottle) (now : Nat), now - th.last_update < th.min_interval →
      th.should_update now = (false, th)) ∧
    (∀ t0 t1 t2 t3 : Nat, 500 ≤ t1 - t0 → t2 - t1 < 500 → 500 < t3 - t1 →
      ((UpdateThrottle.new 500 t0).should_update t1).1 = true ∧
      (((UpdateThrottle.new 500 t0).should_update t1).2.should_update t2) =
        (false, ((UpdateThrottle.new 500 t0).should_update t1).2) ∧
      ((((UpdateThrottle.new 500 t0).should_update t1).2.should_update t2).2.should_update
        t3).1 = true) := by
  refine ⟨?_, ?_, ?_⟩
  · intro th now h
    simp [UpdateThrottle.should_update, h]
  · intro th now h
    simp [UpdateThrottle.should_update]
    omega
  · intro t0 t1 t2 t3 ha hb hc
    simp only [UpdateThrottle.new, UpdateThrottle.should_update, ha, if_pos]
    simp only [if_neg (by omega : ¬ (500 ≤ t2 - t1))]
    simp only [if_pos (by omega : (500 : Nat) ≤ t3 - t1)]
    simp

/-- C7, witness: the throttle theorem at concrete instants 0, 500, 700, 1100
with a 500 ms interval, plus the two general clauses at concrete states. -/
theorem C7_witness :
    ((UpdateThrottle.new 500 0).should_update 500).1 = true ∧
    (((UpdateThrottle.new 500 0).should_update 500).2.should_update 700) =
      (false, ((UpdateThrottle.new 500 0).should_update 500).2) ∧
    ((((UpdateThrottle.new 500 0).should_update 500).2.should_update 700).2.should_update
      1100).1 = true ∧
    UpdateThrottle.should_update { last_update := 0, min_interval := 500 } 500 =
      (true, { last_update := 500, min_interval := 500 }) ∧
    UpdateThrottle.should_update { last_update := 500, min_interval := 500 } 700 =
      (false, { last_update := 500, min_interval := 500 }) := by
  obtain ⟨w1, w2, w3⟩ := C7_throttle.2.2 0 500 700 1100 (by decide) (by decide) (by decide)
  exact ⟨w1, w2, w3,
    C7_throttle.1 { last_update := 0, min_interval := 500 } 500 (by decide),
    C7_throttle.2.1 { last_update := 500, min_interval := 500 } 700 (by decide)⟩

/-- C8, counterexample: two consecutive subscribe failures are retried with no
Reconnecting status, no backoff sleep and no attempt counting — the loop
`continue`s straight into a new Connecting — contradicting the claim that
subscribe failures go through the normal ReconnectionPolicy retry logic. -/
theorem C8_counterexample :
    channelStatuses subFailRun.1 =
      [.connecting, .connected, .error "Subscription failed" true,
       .connecting, .connected, .error "Subscription failed" true, .disconnected] ∧
    sleepDurations subFailRun.1 = [] ∧
    reconnectDelays subFailRun.1 = [] := by
  decide

/-- C8, amended: a subscribe-send failure is always reported as a recoverable
Error ("Subscription failed", recoverable true) and the whole session is
retried, but immediately: the loop continues with the policy freshly reset
(the connect had just succeeded), emitting no Reconnecting status, sleeping
for no backoff delay and consuming none of the attempt budget. -/
theorem C8_subscribe_failure_immediate_retry (sym : String) (p : ReconnectionPolicy)
    (rest : List AttemptEnv) (env : AttemptEnv) (e : String)
    (h1 : env.stopAtLoopTop = false) (h2 : env.connectErr = none)
    (h3 : env.subscribeErr = some e) :
    wsRun sym p (env :: rest) =
      ([.internal .connecting, .channel .connecting, .internal .connected,
        .channel .connected, .frame (.subscribeMsg sym),
        .internal (.error ("Failed to subscribe: " ++ e)),
        .channel (.error "Subscription failed" true)] ++ (wsRun sym p.reset rest).1,
        (wsRun sym p.reset rest).2) := by
  obtain ⟨a, b, c, d, e2⟩ := env
  simp only at h1 h2 h3
  subst h1 h2 h3
  simp [wsRun]

/-- C8, witness: the subscribe-failure theorem at a concrete environment. -/
theorem C8_witness :
    wsRun "AAPL" ReconnectionPolicy.new [subFailEnv, stopEnv] =
      ([.internal .connecting, .channel .connecting, .internal .connected,
        .channel .connected, .frame (.subscribeMsg "AAPL"),
        .internal (.error ("Failed to subscribe: " ++ "broken pipe")),
        .channel (.error "Subscription failed" true)] ++
          (wsRun "AAPL" ReconnectionPolicy.new.reset [stopEnv]).1,
        (wsRun "AAPL" ReconnectionPolicy.new.reset [stopEnv]).2) :=
  C8_subscribe_failure_immediate_retry "AAPL" ReconnectionPolicy.new [stopEnv]
    subFailEnv "broken pipe" rfl rfl rfl

/-- C9, counterexample: a recoverable connect failure records an Error in the
manager's internal status but delivers no Error event through the status
channel — only a Reconnecting follows — contradicting the claim that every
error produces a status-channel Error event. -/
theorem C9_counterexample :
    connFailOnceRun.1 =
      [.internal .connecting, .channel .connecting,
       .internal (.error "Failed to connect: Connection refused (os error 111)"),
       .channel (.reconnecting 1 4), .sleep 4] ∧
    (channelStatuses connFailOnceRun.1).filter isErrorStatus = [] := by
  decide

/-- C9, amended: configuration errors, subscribe failures, fatal connect and
in-stream errors, and retry-budget exhaustion each deliver an Error event
through the status channel; recoverable connect and in-stream errors deliver
no status-channel Error event and are followed by Reconnecting instead.  The
last two conjuncts pin the complete traces of the two recoverable cases: a
recoverable connect failure still writes the error to the manager's internal
status mutex before retrying, while a recoverable in-stream error writes
nothing anywhere (the source only logs it and falls through to the retry
logic). -/
theorem C9_error_events :
    noKeyStart =
      ([.internal (.error "No API key configured. Set FINNHUB_API_KEY environment variable."),
        .channel (.error "No API key configured" false)], true) ∧
    (channelStatuses subFailRun.1).filter isErrorStatus =
      [.error "Subscription failed" true, .error "Subscription failed" true] ∧
    (channelStatuses authConnectRun.1 =
      [.connecting, .error "Authentication failed" false] ∧ authConnectRun.2 = true) ∧
    (channelStatuses authStreamRun.1 =
      [.connecting, .connected, .error "WebSocket error: invalid api key" false] ∧
      authStreamRun.2 = true) ∧
    ((channelStatuses sixFailRun.1).filter isErrorStatus =
      [.error "Failed to connect after 5 attempts" false] ∧ sixFailRun.2 = true) ∧
    connFailOnceRun.1 =
      [.internal .connecting, .channel .connecting,
       .internal (.error "Failed to connect: Connection refused (os error 111)"),
       .channel (.reconnecting 1 4), .sleep 4] ∧
    streamFailRun.1 =
      [.internal .connecting, .channel .connecting, .internal .connected,
       .channel .connected, .frame (.subscribeMsg "AAPL"),
       .channel (.reconnecting 1 4), .sleep 4] := by
  decide

/-- C10: a tick received while live updates are disabled, or while the
throttle is not due, is discarded without any consumer state change — no
trade-history append, no candle change, no counter or last-price update, no
throttle reset and no queueing for later. -/
theorem C10_throttled_tick_discarded (app : App) (lp : LivePrice) (nowMs : Nat)
    (now : Int) :
    (app.live_updates_enabled = false →
      runAppPriceStep app (some lp) nowMs now = app) ∧
    (nowMs - app.update_throttle.last_update < app.update_throttle.min_interval →
      runAppPriceStep app (some lp) nowMs now = app) := by
  constructor
  · intro h
    simp [runAppPriceStep, h]
  · intro h
    by_cases he : app.live_updates_enabled
    · simp only [runAppPriceStep, he, if_true]
      have hr : app.update_throttle.should_update nowMs = (false, app.update_throttle) := by
        simp [UpdateThrottle.should_update]
        omega
      simp [hr]
      rw [← he]
    · simp [runAppPriceStep, he]

/-- C10, witness: a fresh app (live updates disabled, throttle not due 50 ms
after construction) discards a concrete tick both ways. -/
theorem C10_witness :
    runAppPriceStep (App.new 0)
        (some { symbol := "AAPL", price := 10, timestamp := 1000, volume := some 5 })
        50 1000 = App.new 0 ∧
    runAppPriceStep (App.new 0)
        (some { symbol := "AAPL", price := 10, timestamp := 1000, volume := some 5 })
        50 1000 = App.new 0 := by
  refine ⟨?_, ?_⟩
  · exact (C10_throttled_tick_discarded (App.new 0) _ 50 1000).1 rfl
  · exact (C10_throttled_tick_discarded (App.new 0) _ 50 1000).2 (by decide)

end Charty
